import Mathlib

/-!
Shallow embedding of `crates/sequencing/papyrus_consensus/run_consensus.py`
(the orchestration-and-liveness-monitoring harness of papyrus).

Modelling conventions:
* Wall-clock times and port numbers are `Nat`; Python float times only ever
  appear in comparisons and subtractions that the harness performs with the
  current time on the right-hand side, so `Nat` subtraction is faithful there.
* `find_free_port` asks the OS for an ephemeral port; we model the OS as an
  oracle `stream : Nat → Nat` consumed at an explicit call counter, so the
  k-th allocation of the process returns `stream k`.
* Python exceptions (`assert`, `KeyboardInterrupt`) are modelled with
  `Except` / explicit outcome values.
-/

namespace RunConsensus

/-- The runtime `Node` object of the script: validator id, the three listener
ports it was launched with (`tcp_port` and the rpc port live inside the `cmd`
string in the source; we record them as fields), the spawned process handle
(pid, present only after `start()`), and the `height_and_timestamp` pair. -/
structure Node where
  validatorId : Nat
  tcpPort : Nat
  rpcPort : Nat
  monitoringGatewayServerPort : Nat
  process : Option Nat
  height : Option Nat
  lastUpdate : Option Nat
deriving DecidableEq, Repr

/-- `Node.start`: `self.process = subprocess.Popen(...)` — records the pid. -/
def Node.start (n : Node) (pid : Nat) : Node :=
  { n with process := some pid }

/-- `Node.stop`: `if self.process: os.killpg(...); self.process.wait()`.
Returns the node together with the list of pids whose process group was
signalled.  Note the source does not reset `self.process`. -/
def Node.stop (n : Node) : Node × List Nat :=
  match n.process with
  | some pid => (n, [pid])
  | none => (n, [])

/-- `Node.check_height`: `reading` is this tick's `get_height()` result and
`now` the `time.time()` taken inside the method.  A failing
`assert height > self.height_and_timestamp[0]` is an `AssertionError`,
modelled as `.error`. -/
def check_height (n : Node) (reading : Option Nat) (now : Nat) :
    Except String Node :=
  if n.height ≠ reading then
    match n.height, reading with
    | some old, some new =>
      if new > old then
        .ok { n with height := reading, lastUpdate := some now }
      else
        .error "Height should be increasing."
    | _, _ => .ok { n with height := reading, lastUpdate := some now }
  else
    .ok n

/-- `Node.check_height` with the mutation order made explicit: the second
component is the raised `AssertionError` (if any) and the first component is
the state of `self.height_and_timestamp` after the call returns or raises;
in the source the `assert` statement precedes the assignment, so on the
error branch the pair is left untouched. -/
def check_height_run (n : Node) (reading : Option Nat) (now : Nat) :
    Node × Option String :=
  if n.height ≠ reading then
    match n.height, reading with
    | some old, some new =>
      if new > old then
        ({ n with height := reading, lastUpdate := some now }, none)
      else
        (n, some "Height should be increasing.")
    | _, _ => ({ n with height := reading, lastUpdate := some now }, none)
  else
    (n, none)

/-- Feed a node a sequence of polled readings at times `t, t+1, t+2, …`,
stopping at the first `AssertionError`. -/
def runReadings : Node → List (Option Nat) → Nat → Except String Node
  | n, [], _ => .ok n
  | n, r :: rs, t =>
    match check_height n r t with
    | .error e => .error e
    | .ok n' => runReadings n' rs (t + 1)

/-- The per-node stagnation test of `monitor_simulation`, applied to the pair
returned by `check_height`:
`height is not None and (curr_time - last_update) > stagnation_timeout`.
(A non-`none` height is only ever stored together with a timestamp, so the
`(some _, none)` case is unreachable from the initial `(None, None)` state.) -/
def isStagnated (n : Node) (currTime stagnationTimeout : Nat) : Bool :=
  match n.height, n.lastUpdate with
  | some _, some t => decide (stagnationTimeout < currTime - t)
  | _, _ => false

/-- The duration test at the top of `monitor_simulation`:
`duration is not None and duration < (curr_time - start_time)`. -/
def durationExpired (duration : Option Nat) (currTime startTime : Nat) : Bool :=
  match duration with
  | some d => decide (d < currTime - startTime)
  | none => false

/-- The `for node in nodes:` loop body of `monitor_simulation`: poll every
node (`check_height`) left to right; an `AssertionError` aborts the loop and
propagates. Each node is paired with this tick's `get_height()` oracle value. -/
def pollNodes : List (Node × Option Nat) → Nat → Except String (List Node)
  | [], _ => .ok []
  | (n, r) :: rest, currTime =>
    match check_height n r currTime with
    | .error e => .error e
    | .ok n' =>
      match pollNodes rest currTime with
      | .error e => .error e
      | .ok rest' => .ok (n' :: rest')

/-- `monitor_simulation(nodes, start_time, duration, stagnation_timeout)`:
returns the should-exit verdict together with the nodes' updated progress
states.  `readings` are this tick's `get_height()` results, one per node.
Mirrors the source's early `return True` when the duration has expired
(no node is polled on such a tick). -/
def monitor_simulation (nodes : List Node) (readings : List (Option Nat))
    (currTime startTime : Nat) (duration : Option Nat)
    (stagnationTimeout : Nat) : Except String (Bool × List Node) :=
  if durationExpired duration currTime startTime then
    .ok (true, nodes)
  else
    match pollNodes (nodes.zip readings) currTime with
    | .error e => .error e
    | .ok nodes' =>
      .ok (nodes'.any (fun n => isStagnated n currTime stagnationTimeout), nodes')

/-- `find_free_port()`: the OS hands out an ephemeral port.  The OS is the
oracle `stream`; `k` is the number of allocations the process has already
made, so the call returns `stream k` and advances the counter. -/
def find_free_port (stream : Nat → Nat) (k : Nat) : Nat × Nat :=
  (stream k, k + 1)

/-- `BOOTNODE_TCP_PORT = find_free_port()` — computed once at module load,
i.e. with allocation counter 0. -/
def BOOTNODE_TCP_PORT (stream : Nat → Nat) : Nat :=
  (find_free_port stream 0).1

/-- `build_node(base_layer_node_url, data_dir, logs_dir, num_validators, i)`
at allocation counter `k`.  Allocation order in the source: `tcp_port`
(skipped for the bootstrap, which reuses `BOOTNODE_TCP_PORT`), then
`monitoring_gateway_server_port`, then the rpc port interpolated into the
`cmd` string.  The path/url arguments only feed the `cmd` string and are
omitted.  Returns the built node and the advanced counter. -/
def build_node (stream : Nat → Nat) (i k : Nat) : Node × Nat :=
  let is_bootstrap := i == 1
  let (tcp_port, k) :=
    if is_bootstrap then (BOOTNODE_TCP_PORT stream, k) else find_free_port stream k
  let (monitoring_gateway_server_port, k) := find_free_port stream k
  let (rpc_port, k) := find_free_port stream k
  (⟨i, tcp_port, rpc_port, monitoring_gateway_server_port, none, none, none⟩, k)

/-- The loop `for i in range(2, num_validators)` of `build_all_nodes`,
building one node per id while threading the allocation counter. -/
def buildNodesAux (stream : Nat → Nat) : List Nat → Nat → List Node × Nat
  | [], k => ([], k)
  | i :: rest, k =>
    let (n, k') := build_node stream i k
    let (ns, k'') := buildNodesAux stream rest k'
    (n :: ns, k'')

/-- `build_all_nodes`: bootstrap (id 1) first, then ids `2 .. num_validators-1`
in ascending order, then the proposer (id 0) last.  `main` calls it right
after module load, so the allocation counter starts at 1 (index 0 went to
`BOOTNODE_TCP_PORT`). -/
def build_all_nodes (stream : Nat → Nat) (num_validators : Nat) : List Node :=
  (buildNodesAux stream
    (1 :: (List.range' 2 (num_validators - 2) ++ [0])) 1).1

/-- One iteration's worth of observable behaviour of the monitoring loop in
`run_simulation`: either a completed `monitor_simulation` call (returning the
should-exit flag, or raising an `AssertionError`), or a `KeyboardInterrupt`
delivered inside the `try` block. -/
inductive LoopEvent where
  | tick (result : Except String Bool)
  | interrupt
deriving Repr

/-- How the `try` block of `run_simulation` finishes. `running` means the
event script ran out without a stop condition: the loop is still going and
no teardown has happened yet. -/
inductive SimOutcome where
  | normal
  | interrupted
  | error (msg : String)
  | running
deriving DecidableEq, Repr

/-- Whether the outcome is a propagating exception (`AssertionError`). -/
def SimOutcome.isErr : SimOutcome → Bool
  | .error _ => true
  | _ => false

/-- The `while True` loop of `run_simulation`: `tick (.ok false)` continues,
`tick (.ok true)` breaks normally, `tick (.error e)` raises out of the loop,
and `interrupt` is a `KeyboardInterrupt` (caught by the `except` clause). -/
def runSimLoop : List LoopEvent → SimOutcome
  | [] => .running
  | .interrupt :: _ => .interrupted
  | .tick (.ok true) :: _ => .normal
  | .tick (.ok false) :: rest => runSimLoop rest
  | .tick (.error e) :: _ => .error e

/-- Result of `run_simulation`: the validator ids whose `start()` ran (in
order), how the loop finished, and the validator ids whose `stop()` ran. -/
structure SimResult where
  started : List Nat
  outcome : SimOutcome
  stopped : List Nat
deriving DecidableEq, Repr

/-- `run_simulation(nodes, duration, stagnation_timeout)` driven by an event
script.  Every node is started, in list order, before the `try` block; the
`finally` clause stops every node whenever the `try` block finishes —
normally, by `KeyboardInterrupt`, or by a propagating `AssertionError`.  If
the loop never finishes (`running`) the `finally` clause has not run. -/
def run_simulation (nodes : List Node) (events : List LoopEvent) : SimResult :=
  let started := nodes.map Node.validatorId
  match runSimLoop events with
  | .running => ⟨started, .running, []⟩
  | o => ⟨started, o, started⟩

/-- What `main` does around `run_simulation`: acquire the lock, run the
simulation, then `fcntl.flock(lock_fd, fcntl.LOCK_UN); lock_fd.close()`.
`lockReleased` records whether those two release statements executed: they
are skipped when `run_simulation` propagates an exception (there is no
`try/finally` around them in `main`), and never reached while the loop is
still running. -/
structure MainResult where
  started : List Nat
  stopped : List Nat
  lockReleased : Bool
  outcome : SimOutcome
deriving DecidableEq, Repr

/-- The tail of `main` (from `run_simulation` on), driven by an event
script. -/
def main_run (nodes : List Node) (events : List LoopEvent) : MainResult :=
  let r := run_simulation nodes events
  match r.outcome with
  | .error e => ⟨r.started, r.stopped, false, .error e⟩
  | .running => ⟨r.started, r.stopped, false, .running⟩
  | o => ⟨r.started, r.stopped, true, o⟩

/-- Taken from the spec's words, for comparison with the code's behaviour:
a node is stagnated when the latest polled value is non-null, equals the
previously recorded value, and the time elapsed since the last recorded
change is *greater than or equal to* the stagnation timeout. -/
def stagnatedPerSpec (n : Node) (reading : Option Nat)
    (currTime stagnationTimeout : Nat) : Bool :=
  match n.height, n.lastUpdate, reading with
  | some h, some t, some v => v == h && decide (stagnationTimeout ≤ currTime - t)
  | _, _, _ => false

/-- Taken from the spec's words, for comparison with the code's behaviour:
the duration limit triggers once the elapsed time is *greater than or equal
to* the limit. -/
def durationExpiredPerSpec (duration : Option Nat) (currTime startTime : Nat) :
    Bool :=
  match duration with
  | some d => decide (d ≤ currTime - startTime)
  | none => false

/-- A node as freshly constructed (no process, `height_and_timestamp`
= `(None, None)`). -/
def testNode : Node := ⟨1, 10, 11, 12, none, none, none⟩

/-- A node that has recorded height 5 at time 0. -/
def stagNode : Node := { testNode with height := some 5, lastUpdate := some 0 }

/-- A node that has recorded height 7 at time 0. -/
def node7 : Node := { testNode with height := some 7, lastUpdate := some 0 }

section CheckHeightLemmas

lemma check_height_error_iff (n : Node) (r : Option Nat) (now : Nat) :
    (∃ e, check_height n r now = .error e) ↔
      ∃ a b, n.height = some a ∧ r = some b ∧ b < a := by
  rcases hh : n.height with _ | a <;> rcases hr : r with _ | b <;>
    simp [check_height, hh, hr]
  by_cases hab : a = b
  · subst hab; simp
  · have h2 : (some a ≠ some b) := by simpa using hab
    by_cases hlt : a < b <;> simp [h2, hab, hlt] <;> omega

lemma check_height_none_reading (n : Node) (v now : Nat)
    (h : n.height = some v) :
    check_height n none now = .ok { n with height := none, lastUpdate := some now } := by
  simp [check_height, h]

end CheckHeightLemmas

/-- C2: `check_height` raises exactly when a new non-null reading is strictly
smaller than the previously recorded non-null value; the reading sequence
`[5, 5, 5, 7, 7, 9]` never raises, while for `[5, 7, 6]` the third call
raises the monotonicity error. -/
theorem claim_C2_monotonicity :
    (∀ (n : Node) (r : Option Nat) (now : Nat),
      (∃ e, check_height n r now = .error e) ↔
        ∃ a b, n.height = some a ∧ r = some b ∧ b < a)
    ∧ runReadings testNode ([5, 5, 5, 7, 7, 9].map some) 0
        = .ok { testNode with height := some 9, lastUpdate := some 5 }
    ∧ runReadings testNode [some 5, some 7, some 6] 0
        = .error "Height should be increasing." :=
  ⟨check_height_error_iff, rfl, rfl⟩

/-- C10: when `check_height` hits a monotonicity violation, the
`AssertionError` is raised before `self.height_and_timestamp` is reassigned,
so the node's recorded progress state is unchanged by the failing call; on a
successful call the state is exactly the one `check_height` returns. -/
theorem claim_C10_state_unchanged_on_error :
    ∀ (n : Node) (r : Option Nat) (now : Nat),
      (∀ e, check_height n r now = .error e →
        check_height_run n r now = (n, some e))
      ∧ (∀ m, check_height n r now = .ok m →
        check_height_run n r now = (m, none)) := by
  intro n r now
  constructor <;> intro x hx
  all_goals
    unfold check_height at hx
    unfold check_height_run
    split at hx <;> split <;> simp_all
    all_goals (try split at hx) <;> (try split) <;> simp_all


/-- Witness for C10 at a concrete input: recorded height 7, new reading 6. -/
theorem claim_C10_witness :
    check_height_run node7 (some 6) 5 = (node7, some "Height should be increasing.") :=
  (claim_C10_state_unchanged_on_error node7 (some 6) 5).1
    "Height should be increasing." rfl

/-- C9: a node whose recorded height is non-null and that polls `None` has
its state replaced by `(None, now)` without raising; a node whose recorded
height is `None` is never judged stagnated; through `monitor_simulation`
such a tick neither raises nor stops the simulation, and restarts the
node's stagnation clock. -/
theorem claim_C9_unreachable_node_exempt :
    ∀ (n : Node) (v now currTime startTime timeout : Nat),
      (n.height = some v → check_height n none now
          = .ok { n with height := none, lastUpdate := some now })
      ∧ (n.height = none → isStagnated n currTime timeout = false)
      ∧ (n.height = some v →
          monitor_simulation [n] [none] currTime startTime none timeout
            = .ok (false, [{ n with height := none, lastUpdate := some currTime }])) := by
  intro n v now currTime startTime timeout
  refine ⟨fun h => check_height_none_reading n v now h, fun h => by simp [isStagnated, h], fun h => ?_⟩
  simp [monitor_simulation, durationExpired, pollNodes,
    check_height_none_reading n v currTime h, isStagnated]

/-- Witness for C9 at a concrete input: a node with recorded height 7 at
time 0 polls `None` at time 50 with timeout 10. -/
theorem claim_C9_witness :
    monitor_simulation [node7] [none] 50 0 none 10
      = .ok (false, [{ node7 with height := none, lastUpdate := some 50 }]) :=
  (claim_C9_unreachable_node_exempt node7 7 50 50 0 10).2.2 rfl

section MonitorLemmas

lemma pollNodes_ok_forall₂ :
    ∀ (pairs : List (Node × Option Nat)) (currTime : Nat) (out : List Node),
      pollNodes pairs currTime = .ok out →
      List.Forall₂ (fun p n' => check_height p.1 p.2 currTime = .ok n') pairs out := by
  intro pairs
  induction pairs with
  | nil =>
    intro currTime out h
    simp only [pollNodes] at h
    cases h
    exact List.Forall₂.nil
  | cons p rest ih =>
    intro currTime out h
    obtain ⟨n, r⟩ := p
    simp only [pollNodes] at h
    rcases hc : check_height n r currTime with e | n'
    · rw [hc] at h; cases h
    · rw [hc] at h
      rcases hrest : pollNodes rest currTime with e | rest'
      · rw [hrest] at h; cases h
      · rw [hrest] at h
        cases h
        exact List.Forall₂.cons hc (ih currTime rest' hrest)

end MonitorLemmas

/-- C4 counterexample: with recorded height 5 at time 0, an unchanged
reading of 5 at time 30 and `stagnationTimeout = 30`, the elapsed time
equals the timeout, so the spec's inclusive rule flags stagnation, but
`monitor_simulation` (which uses a strict comparison) does not stop. -/
theorem claim_C4_counterexample :
    stagnatedPerSpec stagNode (some 5) 30 30 = true
    ∧ monitor_simulation [stagNode] [some 5] 30 0 none 30
        = .ok (false, [stagNode]) :=
  ⟨rfl, rfl⟩

/-- C4 (amended): a node is judged stagnated exactly when its latest polled
value is non-null, equals the previously recorded value, and the time
elapsed since the last recorded change is *strictly greater than*
`stagnationTimeout`; the monitor flags stagnation at the first tick strictly
after the timeout has elapsed since the last change. -/
theorem claim_C4_stagnation_rule :
    ∀ (n : Node) (h t v currTime timeout startTime : Nat),
      n.height = some h → n.lastUpdate = some t → h ≤ v →
      ∃ nodes,
        monitor_simulation [n] [some v] currTime startTime none timeout
          = .ok ((v == h && decide (timeout < currTime - t)), nodes) := by
  intro n h t v currTime timeout startTime hh ht hv
  by_cases heq : v = h
  · subst heq
    have hne : ¬ (n.height ≠ some v) := by simp [hh]
    refine ⟨[n], ?_⟩
    simp [monitor_simulation, durationExpired, pollNodes, check_height,
      hne, isStagnated, hh, ht]
  · have hlt : h < v := lt_of_le_of_ne hv (fun hc => heq hc.symm)
    refine ⟨[{ n with height := some v, lastUpdate := some currTime }], ?_⟩
    have hne : n.height ≠ some v := by simp [hh]; omega
    have heq2 : ¬ h = v := fun hc => heq hc.symm
    simp [monitor_simulation, durationExpired, pollNodes, check_height,
      hne, hh, hlt, isStagnated, heq, heq2, Nat.sub_self]

/-- Witness for C4 (amended) at a concrete input: recorded height 5 at time
0, unchanged reading at time 31, timeout 30 — flagged (31 − 0 > 30). -/
theorem claim_C4_witness :
    ∃ nodes,
      monitor_simulation [stagNode] [some 5] 31 0 none 30
        = .ok ((5 == 5 && decide (30 < 31 - 0)), nodes) :=
  claim_C4_stagnation_rule stagNode 5 0 5 31 30 0 rfl rfl (by decide)

/-- C5 counterexample: with `duration = 20` and elapsed time exactly 20 and
no node ever stagnated, the spec's inclusive rule says stop, but
`monitor_simulation` (strict comparison `duration < elapsed`) returns
`False`. -/
theorem claim_C5_counterexample :
    durationExpiredPerSpec (some 20) 20 0 = true
    ∧ monitor_simulation [testNode] [none] 20 0 (some 20) 30
        = .ok (false, [testNode]) :=
  ⟨rfl, rfl⟩

/-- C5 (amended): whenever `monitor_simulation` returns a verdict, that
verdict is `true` iff the duration limit is set and *strictly* exceeded by
the elapsed time, or at least one node (in its post-poll state) is
stagnated; in particular it never stops before the limit elapses. -/
theorem claim_C5_stop_verdict :
    ∀ (nodes : List Node) (readings : List (Option Nat))
      (currTime startTime : Nat) (duration : Option Nat) (timeout : Nat)
      (b : Bool) (nodes' : List Node),
      monitor_simulation nodes readings currTime startTime duration timeout
        = .ok (b, nodes') →
      b = (durationExpired duration currTime startTime
            || nodes'.any (fun n => isStagnated n currTime timeout)) := by
  intro nodes readings currTime startTime duration timeout b nodes' hm
  unfold monitor_simulation at hm
  by_cases hd : durationExpired duration currTime startTime
  · rw [if_pos hd] at hm
    cases hm
    simp [hd]
  · rw [if_neg hd] at hm
    rcases hp : pollNodes (nodes.zip readings) currTime with e | out
    · rw [hp] at hm; cases hm
    · rw [hp] at hm
      cases hm
      simp [hd]

/-- Witness for C5 (amended) at a concrete input: duration 20 already
strictly exceeded at elapsed time 25, so the verdict is `true`. -/
theorem claim_C5_witness :
    true = (durationExpired (some 20) 25 0
      || [testNode].any (fun n => isStagnated n 25 30)) :=
  claim_C5_stop_verdict [testNode] [none] 25 0 (some 20) 30 true [testNode] rfl

/-- C8 counterexample: on a tick where the duration limit has already
elapsed, `monitor_simulation` returns its verdict without polling any node —
here the node's reading 99 would have updated its state, yet the returned
state is untouched. -/
theorem claim_C8_counterexample :
    monitor_simulation [stagNode] [some 99] 100 0 (some 20) 30
        = .ok (true, [stagNode])
    ∧ check_height stagNode (some 99) 100
        = .ok { stagNode with height := some 99, lastUpdate := some 100 }
    ∧ ({ stagNode with height := some 99, lastUpdate := some 100 } : Node)
        ≠ stagNode :=
  ⟨rfl, rfl, by decide⟩

/-- C8 (amended): on every tick on which the duration limit has *not*
already elapsed, `monitor_simulation` polls every node (each output state is
the `check_height` update of the corresponding input state) before the stop
verdict is computed, and the verdict is derived from all the updated
states; on duration-expired ticks it returns `true` without polling. -/
theorem claim_C8_poll_before_verdict :
    ∀ (nodes : List Node) (readings : List (Option Nat))
      (currTime startTime : Nat) (duration : Option Nat) (timeout : Nat)
      (b : Bool) (nodes' : List Node),
      durationExpired duration currTime startTime = false →
      monitor_simulation nodes readings currTime startTime duration timeout
        = .ok (b, nodes') →
      List.Forall₂ (fun p n' => check_height p.1 p.2 currTime = .ok n')
          (nodes.zip readings) nodes'
        ∧ b = nodes'.any (fun n => isStagnated n currTime timeout) := by
  intro nodes readings currTime startTime duration timeout b nodes' hd hm
  unfold monitor_simulation at hm
  rw [hd] at hm
  simp only [Bool.false_eq_true, if_false] at hm
  rcases hp : pollNodes (nodes.zip readings) currTime with e | out
  · rw [hp] at hm; cases hm
  · rw [hp] at hm
    cases hm
    exact ⟨pollNodes_ok_forall₂ _ _ _ hp, rfl⟩

/-- Witness for C8 (amended) at a concrete input: one node, unchanged
reading, non-expired duration check (none set), stagnation flagged after
polling. -/
theorem claim_C8_witness :
    List.Forall₂ (fun p n' => check_height p.1 p.2 31 = .ok n')
        ([stagNode].zip [some 5]) [stagNode]
      ∧ true = [stagNode].any (fun n => isStagnated n 31 30) :=
  claim_C8_poll_before_verdict [stagNode] [some 5] 31 0 none 30 true [stagNode]
    rfl rfl

/-- C7 counterexample: after `start()` and a completed `stop()`, the process
handle is still present (the source never resets `self.process`), so a
second `stop()` finds a live handle and signals the process group again —
it is not a no-op. -/
theorem claim_C7_counterexample :
    (Node.stop (Node.start testNode 42)).1.process = some 42
    ∧ (Node.stop (Node.stop (Node.start testNode 42)).1).2 = [42] :=
  ⟨rfl, rfl⟩

/-- C7 (amended): `stop()` on a never-started node is a no-op; the process
handle is created by `start()` but *not* cleared by `stop()`, so a second
`stop()` signals the same process group again. -/
theorem claim_C7_stop_behaviour :
    ∀ (n : Node) (pid : Nat),
      (n.process = none → Node.stop n = (n, []))
      ∧ (Node.start n pid).process = some pid
      ∧ Node.stop (Node.start n pid) = (Node.start n pid, [pid])
      ∧ Node.stop (Node.stop (Node.start n pid)).1
          = (Node.start n pid, [pid]) := by
  intro n pid
  refine ⟨fun h => ?_, rfl, rfl, rfl⟩
  simp [Node.stop, h]

/-- Witness for C7 (amended) at a concrete never-started node and pid 42. -/
theorem claim_C7_witness :
    Node.stop testNode = (testNode, []) ∧
    Node.stop (Node.stop (Node.start testNode 42)).1
      = (Node.start testNode 42, [42]) :=
  ⟨(claim_C7_stop_behaviour testNode 42).1 rfl,
   (claim_C7_stop_behaviour testNode 42).2.2.2⟩

/-- C1 counterexample: when the monitoring loop raises the monotonicity
`AssertionError`, the `finally` clause stops every node, but `main`'s
`fcntl.flock(lock_fd, fcntl.LOCK_UN); lock_fd.close()` statements are
skipped (there is no `try/finally` around them), so on that exit path the
program does not release the directory lock itself. -/
theorem claim_C1_counterexample :
    (main_run [testNode] [.tick (.error "Height should be increasing.")]).stopped
        = [1]
    ∧ (main_run [testNode] [.tick (.error "Height should be increasing.")]).lockReleased
        = false :=
  ⟨rfl, rfl⟩

/-- C1 (amended): on every terminating exit of the monitoring loop — normal
stop verdict, stagnation/duration stop, `KeyboardInterrupt`, or a
propagating `AssertionError` — the single `finally` clause stops every node
that was started; the explicit lock release in `main` however runs exactly
on the non-exception exits, and is skipped when the monotonicity error
propagates. -/
theorem claim_C1_teardown :
    ∀ (nodes : List Node) (events : List LoopEvent),
      runSimLoop events ≠ .running →
      (main_run nodes events).stopped = nodes.map Node.validatorId
      ∧ (main_run nodes events).lockReleased
          = !(main_run nodes events).outcome.isErr
      ∧ (main_run nodes events).outcome = runSimLoop events := by
  intro nodes events hterm
  rcases ho : runSimLoop events with _ | _ | e | _
  · exact ⟨by simp [main_run, run_simulation, ho], by simp [main_run, run_simulation, ho, SimOutcome.isErr], by simp [main_run, run_simulation, ho]⟩
  · exact ⟨by simp [main_run, run_simulation, ho], by simp [main_run, run_simulation, ho, SimOutcome.isErr], by simp [main_run, run_simulation, ho]⟩
  · exact ⟨by simp [main_run, run_simulation, ho], by simp [main_run, run_simulation, ho, SimOutcome.isErr], by simp [main_run, run_simulation, ho]⟩
  · exact absurd ho hterm

/-- Witness for C1 (amended): a stop-condition tick, one node. -/
theorem claim_C1_witness :
    (main_run [testNode] [.tick (.ok true)]).stopped
        = [testNode].map Node.validatorId
    ∧ (main_run [testNode] [.tick (.ok true)]).lockReleased
        = !(main_run [testNode] [.tick (.ok true)]).outcome.isErr
    ∧ (main_run [testNode] [.tick (.ok true)]).outcome
        = runSimLoop [.tick (.ok true)] :=
  claim_C1_teardown [testNode] [.tick (.ok true)] (by decide)

/-- The three listener ports of one node, in allocation order. -/
def portsOf (n : Node) : List Nat :=
  [n.tcpPort, n.monitoringGatewayServerPort, n.rpcPort]

/-- All listener ports across one simulation's node set. -/
def allPorts (stream : Nat → Nat) (num_validators : Nat) : List Nat :=
  (build_all_nodes stream num_validators).flatMap portsOf

section BuildLemmas

lemma build_node_boot (stream : Nat → Nat) (k : Nat) :
    build_node stream 1 k
      = (⟨1, stream 0, stream (k+1), stream k, none, none, none⟩, k + 2) := rfl

lemma build_node_other (stream : Nat → Nat) (i k : Nat) (h : i ≠ 1) :
    build_node stream i k
      = (⟨i, stream k, stream (k+2), stream (k+1), none, none, none⟩, k + 3) := by
  have hb : (i == 1) = false := by simpa using h
  simp [build_node, find_free_port, hb]

lemma range'_three (k m : Nat) :
    List.range' k (3 * (m + 1))
      = k :: (k+1) :: (k+2) :: List.range' (k+3) (3*m) := by
  rw [show 3 * (m + 1) = ((3*m + 2)) + 1 by ring, List.range'_succ]
  rw [show 3*m + 2 = (3*m + 1) + 1 by ring, List.range'_succ]
  rw [List.range'_succ]

lemma buildNodesAux_ids (stream : Nat → Nat) :
    ∀ (ids : List Nat) (k : Nat),
      ((buildNodesAux stream ids k).1).map Node.validatorId = ids := by
  intro ids
  induction ids with
  | nil => intro k; rfl
  | cons i rest ih =>
    intro k
    by_cases hi : i = 1
    · subst hi
      simp [buildNodesAux, build_node_boot, ih]
    · simp [buildNodesAux, build_node_other stream i k hi, ih]

lemma buildNodesAux_ports (stream : Nat → Nat) :
    ∀ (ids : List Nat) (k : Nat), 1 ∉ ids →
      (buildNodesAux stream ids k).2 = k + 3 * ids.length
      ∧ ((buildNodesAux stream ids k).1).flatMap portsOf
          = (List.range' k (3 * ids.length)).map stream := by
  intro ids
  induction ids with
  | nil => intro k _; exact ⟨by simp [buildNodesAux], by simp [buildNodesAux]⟩
  | cons i rest ih =>
    intro k hmem
    have hi : i ≠ 1 := fun h => hmem (h ▸ List.mem_cons_self i rest)
    have hrest : 1 ∉ rest := fun h => hmem (List.mem_cons_of_mem i h)
    obtain ⟨ihk, ihp⟩ := ih (k + 3) hrest
    constructor
    · simp only [buildNodesAux, build_node_other stream i k hi]
      simp [ihk, List.length_cons]
      ring
    · simp only [buildNodesAux, build_node_other stream i k hi]
      simp [portsOf, ihp, List.length_cons, range'_three]

lemma build_all_nodes_ports (stream : Nat → Nat) (N : Nat) (hN : 2 ≤ N) :
    allPorts stream N = (List.range (3 * N)).map stream := by
  have hmem : (1 : Nat) ∉ (List.range' 2 (N - 2) ++ [0]) := by
    simp [List.mem_range'_1]
  obtain ⟨hk, hp⟩ := buildNodesAux_ports stream (List.range' 2 (N - 2) ++ [0]) 3 hmem
  have hlen : (List.range' 2 (N - 2) ++ [0]).length = N - 1 := by
    simp [List.length_range']
    omega
  unfold allPorts build_all_nodes
  simp only [buildNodesAux, build_node_boot]
  simp only [List.flatMap_cons]
  rw [hp, hlen]
  have h012 : portsOf ⟨1, stream 0, stream 2, stream 1, none, none, none⟩
      = (List.range' 0 3).map stream := rfl
  rw [h012, ← List.map_append, List.range'_append, List.range_eq_range']
  have harith : 3 * (N - 1) + 3 = 3 * N := by omega
  rw [harith]

lemma run_simulation_started (nodes : List Node) (events : List LoopEvent) :
    (run_simulation nodes events).started = nodes.map Node.validatorId := by
  unfold run_simulation
  split <;> rfl

end BuildLemmas

/-- C3: assuming the OS port oracle never hands out the same ephemeral port
twice within one simulation (the spec's accepted environment assumption for
`find_free_port`), the ports of all nodes — each node's network TCP port,
RPC port and monitoring-gateway port, with the bootstrap's fixed network
port counted once — are pairwise distinct, giving exactly `3 * N` unique
port values for cluster size `N ≥ 2`. -/
theorem claim_C3_port_uniqueness :
    ∀ (stream : Nat → Nat) (N : Nat),
      Function.Injective stream → 2 ≤ N →
      (allPorts stream N).Nodup ∧ (allPorts stream N).length = 3 * N := by
  intro stream N hinj hN
  rw [build_all_nodes_ports stream N hN]
  exact ⟨List.Nodup.map hinj (List.nodup_range _), by simp⟩

/-- Witness for C3 at a concrete oracle (the identity stream) and `N = 2`. -/
theorem claim_C3_witness :
    (allPorts id 2).Nodup ∧ (allPorts id 2).length = 3 * 2 :=
  claim_C3_port_uniqueness id 2 Function.injective_id (by decide)

/-- C6: for every `N ≥ 2`, `build_all_nodes` produces — and `run_simulation`
starts — the nodes in exactly this order: bootstrap (validator id 1) first,
then the peers with ids `2 .. N-1` in ascending order, then the proposer
(validator id 0) last. -/
theorem claim_C6_startup_order :
    ∀ (stream : Nat → Nat) (N : Nat) (events : List LoopEvent), 2 ≤ N →
      (build_all_nodes stream N).map Node.validatorId
        = 1 :: (List.range' 2 (N - 2) ++ [0])
      ∧ (run_simulation (build_all_nodes stream N) events).started
        = 1 :: (List.range' 2 (N - 2) ++ [0]) := by
  intro stream N events _
  have h := buildNodesAux_ids stream (1 :: (List.range' 2 (N - 2) ++ [0])) 1
  exact ⟨h, by rw [run_simulation_started]; exact h⟩

/-- Witness for C6 at `N = 4`: start order is `[1, 2, 3, 0]`. -/
theorem claim_C6_witness :
    (build_all_nodes id 4).map Node.validatorId
      = 1 :: (List.range' 2 (4 - 2) ++ [0])
    ∧ (run_simulation (build_all_nodes id 4) []).started
      = 1 :: (List.range' 2 (4 - 2) ++ [0]) :=
  claim_C6_startup_order id 4 [] (by decide)

end RunConsensus
